import Mathlib

/-!
Verification development for the book-recommendation core: similarity
utilities, the content-based engine, the collaborative engine and the
recommendation orchestrator, embedded as pure Lean functions over an
abstract data-access collaborator.  Scores are modelled as rationals
(`ℚ`); Python's `round(x, n)` is modelled with half-up rounding on `ℚ`
(the two agree everywhere the development evaluates them).
-/

set_option maxRecDepth 10000

set_option allowUnsafeReducibility true

attribute [local semireducible] Rat.mul Rat.add Rat.inv Rat.sub Rat.ofScientific

namespace BookRec

/-- A user record as returned by the data layer: id, username and the
list of declared genre interests. -/
structure User where
  id : Nat
  username : String
  interests : List String
deriving DecidableEq

/-- A book record: identifier, title, author, genre labels, free-text
description, and the externally computed average rating that the engines
attach for display (absent until attached). -/
structure Book where
  id : Nat
  title : String
  author : String
  genres : List String
  description : String
  avg_rating : Option ℚ := none
deriving DecidableEq

/-- One row of `get_high_rated_books_by_users`: a book joined with a
single rating made by one of the queried users. -/
structure RatedItem where
  id : Nat
  title : String
  author : String
  genres : List String
  description : String
  rating : Nat
  rated_by_user_id : Nat
deriving DecidableEq

/-- One row of `get_popular_books`: a book together with its rating
count (the book part carries the aggregated average rating). -/
structure PopularBook where
  book : Book
  rating_count : Nat
deriving DecidableEq

/-- The external data-access collaborator (`database.py`), abstracted as
a record of pure query functions, exactly the surface the recommendation
core calls into. -/
structure DB where
  get_user_by_id : Nat → Option User
  get_all_users : List User
  get_all_books : List Book
  get_rated_book_ids : Nat → List Nat
  get_high_rated_books_by_users : List Nat → Nat → List RatedItem
  get_average_book_rating : Nat → Option ℚ
  get_popular_books : Nat → List PopularBook
  get_recent_books : Nat → List Book
  get_user_rating : Nat → Nat → Option Nat
  get_book_by_id : Nat → Option Book

/-- `utils/constants.py`: `MIN_SIMILARITY_THRESHOLD = 0.1`. -/
def MIN_SIMILARITY_THRESHOLD : ℚ := 1 / 10

/-- `utils/constants.py`: `DEFAULT_RECOMMENDATION_COUNT = 10`. -/
def DEFAULT_RECOMMENDATION_COUNT : Nat := 10

/-- Python's `round(x, 3)` on the rationals the engines produce
(half-up rounding; Python's tie behaviour differs only at exact
half-thousandths, which never arise in this development). -/
def round3 (q : ℚ) : ℚ := (round (q * 1000) : ℤ) / 1000

/-- Python's `str.lower()` (per-character ASCII lowering, the case the
genre labels exercise). -/
def lowerStr (s : String) : String := ⟨s.data.map Char.toLower⟩

/-- Python's `str.strip()`: drop leading and trailing whitespace. -/
def stripStr (s : String) : String :=
  ⟨((s.data.dropWhile Char.isWhitespace).reverse.dropWhile Char.isWhitespace).reverse⟩

/-- Python's `sep.join(parts)`. -/
def joinSep (sep : String) : List String → String
  | [] => ""
  | [x] => x
  | x :: xs => x ++ sep ++ joinSep sep xs

/-- `recommender/utils.py` `jaccard_similarity`: intersection size over
union size of the two sets exactly as given (no normalization inside),
with the two explicit zero guards of the source. -/
def jaccard_similarity (set1 set2 : Finset String) : ℚ :=
  if set1 = ∅ ∧ set2 = ∅ then 0
  else
    let intersection := (set1 ∩ set2).card
    let union := (set1 ∪ set2).card
    if union = 0 then 0
    else (intersection : ℚ) / (union : ℚ)

/-- `recommender/utils.py` `normalize_genres`:
`{g.lower().strip() for g in genres if g}`. -/
def normalize_genres (genres : List String) : Finset String :=
  ((genres.filter (fun g => decide (g ≠ ""))).map (fun g => stripStr (lowerStr g))).toFinset

/-- `recommender/utils.py` `calculate_genre_overlap`: normalize both
label lists, then delegate to `jaccard_similarity`. -/
def calculate_genre_overlap (user_interests book_genres : List String) : ℚ :=
  jaccard_similarity (normalize_genres user_interests) (normalize_genres book_genres)

/-- A recommendation record as built by the engines: book, score,
reason, category tag, and (for collaborative results only) the number of
contributing similar users. -/
structure Rec where
  book : Book
  score : ℚ
  reason : String
  recommendation_type : String
  num_similar_users : Option Nat := none
deriving DecidableEq

/-- The descending-score ordering used by
`recommendations.sort(key=lambda x: x['score'], reverse=True)`. -/
def scoreGE (a b : Rec) : Prop := b.score ≤ a.score

instance : DecidableRel scoreGE := fun a b => inferInstanceAs (Decidable (b.score ≤ a.score))

instance : IsTotal Rec scoreGE := ⟨fun a b => le_total b.score a.score⟩

instance : IsTrans Rec scoreGE := ⟨fun _ _ _ hab hbc => le_trans hbc hab⟩

/-- Python's stable sort, descending by score. -/
def sortByScoreDesc (l : List Rec) : List Rec := List.insertionSort scoreGE l

/-- The matching list of the content-based reason: the book's genres
whose lowercased (but not whitespace-trimmed) form appears among the
lowercased user interests. -/
def contentMatchingList (user_interests : List String) (book : Book) : List String :=
  let matching_genres :=
    (user_interests.map lowerStr).toFinset ∩ (book.genres.map lowerStr).toFinset
  book.genres.filter (fun g => decide (lowerStr g ∈ matching_genres))

/-- The body of the per-book loop of `get_content_based_recommendations`:
skip rated books and books under the similarity threshold, otherwise
build the recommendation record. -/
def contentRecOf (db : DB) (user_interests : List String) (rated_book_ids : List Nat)
    (book : Book) : Option Rec :=
  if book.id ∈ rated_book_ids then none
  else
    let score := calculate_genre_overlap user_interests book.genres
    if score < MIN_SIMILARITY_THRESHOLD then none
    else
      let matching_list := contentMatchingList user_interests book
      let reason :=
        if matching_list ≠ [] then
          "Matches your interest in " ++ joinSep ", " (matching_list.take 3)
        else "Based on your reading preferences"
      some { book := { book with avg_rating := db.get_average_book_rating book.id }
             score := round3 score
             reason := reason
             recommendation_type := "content_based" }

/-- `recommender/content_based.py` `get_content_based_recommendations`. -/
def get_content_based_recommendations (db : DB) (user_id : Nat) (limit : Nat) : List Rec :=
  match db.get_user_by_id user_id with
  | none => []
  | some user =>
    let user_interests := user.interests
    if user_interests = [] then []
    else
      let all_books := db.get_all_books
      let rated_book_ids := db.get_rated_book_ids user_id
      let recommendations := all_books.filterMap (contentRecOf db user_interests rated_book_ids)
      (sortByScoreDesc recommendations).take limit

/-- A similar-user record as built by `find_similar_users`. -/
structure SimilarUser where
  user_id : Nat
  username : String
  similarity : ℚ
  common_interests : List String
deriving DecidableEq

/-- The descending-similarity ordering used by
`similar_users.sort(key=lambda x: x['similarity'], reverse=True)`. -/
def simGE (a b : SimilarUser) : Prop := b.similarity ≤ a.similarity

instance : DecidableRel simGE := fun a b => inferInstanceAs (Decidable (b.similarity ≤ a.similarity))

instance : IsTotal SimilarUser simGE := ⟨fun a b => le_total b.similarity a.similarity⟩

instance : IsTrans SimilarUser simGE := ⟨fun _ _ _ hab hbc => le_trans hbc hab⟩

/-- Python's stable sort, descending by similarity. -/
def sortBySimilarityDesc (l : List SimilarUser) : List SimilarUser := List.insertionSort simGE l

/-- `recommender/collaborative.py` `find_similar_users`. -/
def find_similar_users (db : DB) (user_id : Nat) (min_similarity : ℚ) : List SimilarUser :=
  match db.get_user_by_id user_id with
  | none => []
  | some target_user =>
    let target_interests := normalize_genres target_user.interests
    if target_interests = ∅ then []
    else
      let similar_users := db.get_all_users.filterMap (fun user =>
        if user.id = user_id then none
        else
          let user_interests := normalize_genres user.interests
          if user_interests = ∅ then none
          else
            let similarity := jaccard_similarity target_interests user_interests
            if min_similarity ≤ similarity then
              let common := target_interests ∩ user_interests
              some { user_id := user.id
                     username := user.username
                     similarity := round3 similarity
                     common_interests :=
                       target_user.interests.filter (fun g => decide (lowerStr g ∈ common)) }
            else none)
      sortBySimilarityDesc similar_users

/-- One entry of a book's `contributors` list in the collaborative
aggregation: the rater, the rating, and the rater's similarity. -/
structure Contributor where
  user_id : Nat
  rating : Nat
  similarity : ℚ
deriving DecidableEq

/-- The value of one `book_scores[book_id]` entry: running weighted
score, contributing raters, and the book payload. -/
structure BookScoreData where
  score : ℚ
  contributors : List Contributor
  book : Option Book
deriving DecidableEq

/-- The dict built by
`user_similarity = {u['user_id']: u['similarity'] for u in similar_users}`
followed by `.get(rater_id, 0)`: the last entry for a key wins. -/
def simLookup (similar_users : List SimilarUser) (rater_id : Nat) : ℚ :=
  ((similar_users.reverse.find? (fun u => u.user_id == rater_id)).map (fun u => u.similarity)).getD 0

/-- The book payload stored into `book_scores[book_id]['book']`. -/
def itemBook (item : RatedItem) : Book :=
  { id := item.id, title := item.title, author := item.author,
    genres := item.genres, description := item.description }

/-- One mutation of the `book_scores` defaultdict (an association list in
first-insertion order, as Python dicts preserve insertion order): add `w`
to the score, append the contributor, overwrite the book payload. -/
def bsUpdate (l : List (Nat × BookScoreData)) (k : Nat) (w : ℚ) (c : Contributor) (b : Book) :
    List (Nat × BookScoreData) :=
  match l with
  | [] => [(k, ⟨w, [c], some b⟩)]
  | (k', d) :: t =>
    if k' = k then (k', ⟨d.score + w, d.contributors ++ [c], some b⟩) :: t
    else (k', d) :: bsUpdate t k w c b

/-- The aggregation loop of `get_collaborative_recommendations`: fold the
highly rated items into `book_scores`, skipping books the target user has
already rated. -/
def collabAggregate (rated_book_ids : List Nat) (similar_users : List SimilarUser)
    (items : List RatedItem) : List (Nat × BookScoreData) :=
  items.foldl (fun acc item =>
    if item.id ∈ rated_book_ids then acc
    else
      bsUpdate acc item.id
        (simLookup similar_users item.rated_by_user_id * ((item.rating : ℚ) / 5))
        ⟨item.rated_by_user_id, item.rating, simLookup similar_users item.rated_by_user_id⟩
        (itemBook item))
    []

/-- `max_possible = sum(u['similarity'] for u in similar_users)`. -/
def max_possible (similar_users : List SimilarUser) : ℚ :=
  (similar_users.map (fun u => u.similarity)).sum

/-- Python's `f"{x:.0f}"` on the nonnegative averages the reasons render
(tie behaviour never exercised: a single contributor's average is an
integer). -/
def fmt0 (q : ℚ) : String := toString (round q)

/-- Python's `f"{x:.1f}"` on the nonnegative averages the reasons render. -/
def fmt1 (q : ℚ) : String :=
  let n := round (q * 10)
  toString (n / 10) ++ "." ++ toString (n % 10)

/-- The body of the `for book_id, data in book_scores.items()` loop of
`get_collaborative_recommendations`: normalize the accumulated score by
`mp` (capped at 1, 0 when `mp` is 0), build the reason from the
contributors, attach the display average and tag the record. -/
def collabRecOf (db : DB) (mp : ℚ) (kd : Nat × BookScoreData) : Option Rec :=
  match kd.2.book with
  | none => none
  | some book =>
    let normalized_score : ℚ := if 0 < mp then min (kd.2.score / mp) 1 else 0
    let num_recommenders := kd.2.contributors.length
    let avg_rating : ℚ :=
      ((kd.2.contributors.map (fun c => (c.rating : ℚ))).sum) / (num_recommenders : ℚ)
    let reason :=
      if num_recommenders = 1 then
        "Recommended by a reader with similar taste (rated " ++ fmt0 avg_rating ++ "★)"
      else
        "Loved by " ++ toString num_recommenders ++ " readers with similar taste (avg "
          ++ fmt1 avg_rating ++ "★)"
    some { book := { book with avg_rating := db.get_average_book_rating kd.1 }
           score := round3 normalized_score
           reason := reason
           recommendation_type := "collaborative"
           num_similar_users := some num_recommenders }

/-- `recommender/collaborative.py` `get_collaborative_recommendations`. -/
def get_collaborative_recommendations (db : DB) (user_id : Nat) (limit : Nat) : List Rec :=
  let similar_users := find_similar_users db user_id MIN_SIMILARITY_THRESHOLD
  if similar_users = [] then []
  else
    let rated_book_ids := db.get_rated_book_ids user_id
    let similar_user_ids := similar_users.map (fun u => u.user_id)
    let highly_rated_books := db.get_high_rated_books_by_users similar_user_ids 4
    if highly_rated_books = [] then []
    else
      let book_scores := collabAggregate rated_book_ids similar_users highly_rated_books
      let mp := max_possible similar_users
      let recommendations := book_scores.filterMap (collabRecOf db mp)
      (sortByScoreDesc recommendations).take limit

/-- The popular-books phase of `get_fallback_recommendations`: skip
books the user has rated, tag the rest with the neutral 0.5 score and
the popularity (or recency, when unrated by everyone) reason. -/
def fallbackPopRecOf (rated_book_ids : List Nat) (p : PopularBook) : Option Rec :=
  if p.book.id ∈ rated_book_ids then none
  else
    some { book := p.book
           score := (1 : ℚ)/2
           reason := if 0 < p.rating_count then "Popular among readers" else "Recently added"
           recommendation_type := "fallback" }

/-- The body of the recent-books loop of `get_fallback_recommendations`:
append an unrated, not-yet-present book with score 0.3. -/
def fallbackRecentStep (rated_book_ids : List Nat) (acc : List Rec) (book : Book) : List Rec :=
  if book.id ∈ rated_book_ids then acc
  else if acc.any (fun r => r.book.id == book.id) then acc
  else acc ++ [{ book := book
                 score := (3 : ℚ)/10
                 reason := "Recently added"
                 recommendation_type := "fallback" }]

/-- `services/recommendation_service.py`
`RecommendationService.get_fallback_recommendations`. -/
def get_fallback_recommendations (db : DB) (user_id : Nat) (limit : Nat) : List Rec :=
  let rated_book_ids := db.get_rated_book_ids user_id
  let recommendations := (db.get_popular_books limit).filterMap (fallbackPopRecOf rated_book_ids)
  let recommendations :=
    if recommendations.length < limit then
      (db.get_recent_books limit).foldl (fallbackRecentStep rated_book_ids) recommendations
    else recommendations
  recommendations.take limit

/-- The value of `RecommendationService.get_recommendations`: a dict with
exactly the keys `content_based`, `collaborative` and `fallback`. -/
structure RecommendationResult where
  content_based : List Rec
  collaborative : List Rec
  fallback : List Rec
deriving DecidableEq

/-- `services/recommendation_service.py`
`RecommendationService.get_recommendations`. -/
def get_recommendations (db : DB) (user_id : Nat) (limit : Nat) : RecommendationResult :=
  let content_recs := get_content_based_recommendations db user_id limit
  let collab_recs := get_collaborative_recommendations db user_id limit
  { content_based := content_recs
    collaborative := collab_recs
    fallback :=
      if content_recs = [] ∧ collab_recs = [] then get_fallback_recommendations db user_id limit
      else [] }

/-- One source step of the home-feed inner `for source in sources` loop:
take the element at `idx` if the source is long enough and the book was
not yet seen. The accumulator is (feed, seen ids, added flag). -/
def feedStep (idx : Nat) (acc : List Rec × Finset Nat × Bool) (source : List Rec) :
    List Rec × Finset Nat × Bool :=
  match source[idx]? with
  | none => acc
  | some r =>
    if r.book.id ∈ acc.2.1 then acc
    else (acc.1 ++ [r], insert r.book.id acc.2.1, true)

/-- One full pass of the home-feed `while` body across all sources at a
fixed index, starting with `added = False`. -/
def onePass (sources : List (List Rec)) (idx : Nat) (feed : List Rec) (seen : Finset Nat) :
    List Rec × Finset Nat × Bool :=
  sources.foldl (feedStep idx) (feed, seen, false)

theorem feedStep_fold_length (sources : List (List Rec)) (idx : Nat) :
    ∀ acc : List Rec × Finset Nat × Bool,
      acc.1.length ≤ (sources.foldl (feedStep idx) acc).1.length ∧
      ((sources.foldl (feedStep idx) acc).2.2 = true →
        acc.2.2 = true ∨ acc.1.length < (sources.foldl (feedStep idx) acc).1.length) := by
  induction sources with
  | nil => intro acc; simp [List.foldl]
  | cons s rest ih =>
    intro acc
    simp only [List.foldl_cons]
    rcases ih (feedStep idx acc s) with ⟨hlen, hadd⟩
    unfold feedStep at *
    rcases h : s[idx]? with _ | r
    · simp only [h] at hlen hadd ⊢
      exact ⟨hlen, hadd⟩
    · simp only [h] at hlen hadd ⊢
      by_cases hmem : r.book.id ∈ acc.2.1
      · simp only [if_pos hmem] at hlen hadd ⊢
        exact ⟨hlen, hadd⟩
      · simp only [if_neg hmem] at hlen hadd ⊢
        constructor
        · simp only [List.length_append, List.length_singleton] at hlen; omega
        · intro h2
          right
          rcases hadd h2 with h3 | h3
          · simp only [List.length_append, List.length_singleton] at hlen; omega
          · simp only [List.length_append, List.length_singleton] at h3; omega

theorem onePass_length_lt (sources : List (List Rec)) (idx : Nat) (feed : List Rec)
    (seen : Finset Nat) (h : (onePass sources idx feed seen).2.2 = true) :
    feed.length < (onePass sources idx feed seen).1.length := by
  rcases feedStep_fold_length sources idx (feed, seen, false) with ⟨_, hadd⟩
  rcases hadd h with h2 | h2
  · simp at h2
  · exact h2

/-- The `while len(feed) < limit` loop of `get_personalized_home_feed`:
one pass per index; stop at `limit` or when a full pass adds nothing. -/
def feedLoop (sources : List (List Rec)) (limit : Nat) (idx : Nat) (feed : List Rec)
    (seen : Finset Nat) : List Rec :=
  if feed.length < limit then
    if h2 : (onePass sources idx feed seen).2.2 = true then
      feedLoop sources limit (idx + 1) (onePass sources idx feed seen).1
        (onePass sources idx feed seen).2.1
    else (onePass sources idx feed seen).1
  else feed
termination_by limit - feed.length
decreasing_by
  have := onePass_length_lt sources idx feed seen h2
  omega

/-- `services/recommendation_service.py`
`RecommendationService.get_personalized_home_feed`. -/
def get_personalized_home_feed (db : DB) (user_id : Nat) (limit : Nat) : List Rec :=
  let all_recs := get_recommendations db user_id limit
  let sources := [all_recs.content_based, all_recs.collaborative, all_recs.fallback]
  (feedLoop sources limit 0 [] ∅).take limit

/-- Rendering of the float average inside the popularity clause of
`explain_recommendation` (digit layout approximates Python's `str`; no
claim inspects these digits, only that the clause is nonempty). -/
def fmt2 (q : ℚ) : String :=
  let n := round (q * 100)
  toString (n / 100) ++ "." ++ toString (n % 100)

/-- The `for sim_user in similar_users[:5]` loop of
`explain_recommendation`: first of the given peers whose rating of the
book is truthy and at least 4 yields the clause and breaks. -/
def firstPeerClause (db : DB) (book_id : Nat) : List SimilarUser → Option String
  | [] => none
  | sim_user :: rest =>
    match db.get_user_rating sim_user.user_id book_id with
    | some rating =>
      if 4 ≤ rating then
        some ("Readers with similar taste rated this " ++ toString rating ++ "★")
      else firstPeerClause db book_id rest
    | none => firstPeerClause db book_id rest

/-- The genre-overlap clause of `explain_recommendation` (empty list
when the lowercased interest and genre sets do not intersect). -/
def genreClause (user : User) (book : Book) : List String :=
  let common := (user.interests.map lowerStr).toFinset ∩ (book.genres.map lowerStr).toFinset
  if common ≠ ∅ then
    ["This book matches your interest in "
      ++ joinSep ", " (book.genres.filter (fun g => decide (lowerStr g ∈ common)))]
  else []

/-- The global-popularity clause of `explain_recommendation` (empty list
when there is no average rating or it is below 4). -/
def popClause (db : DB) (book_id : Nat) : List String :=
  match db.get_average_book_rating book_id with
  | some avg_rating =>
    if 4 ≤ avg_rating then ["Highly rated by readers (" ++ fmt2 avg_rating ++ "★ average)"]
    else []
  | none => []

/-- The `explanations` list of `explain_recommendation`: genre overlap,
then the first of the top-5 similar peers who rated the book at least 4,
then global popularity. -/
def explainClauses (db : DB) (user_id book_id : Nat) (user : User) (book : Book) : List String :=
  genreClause user book
    ++ (firstPeerClause db book_id ((find_similar_users db user_id MIN_SIMILARITY_THRESHOLD).take 5)).toList
    ++ popClause db book_id

/-- `services/recommendation_service.py`
`RecommendationService.explain_recommendation`. -/
def explain_recommendation (db : DB) (user_id book_id : Nat) : Option String :=
  match db.get_user_by_id user_id, db.get_book_by_id book_id with
  | some user, some book =>
    if explainClauses db user_id book_id user book ≠ [] then
      some (joinSep " • " (explainClauses db user_id book_id user book))
    else some "Based on your reading preferences"
  | _, _ => none

/-! Concrete data-access instances used to exercise the engines. -/

/-- A data layer with no users, books or ratings. -/
def emptyDB : DB where
  get_user_by_id := fun _ => none
  get_all_users := []
  get_all_books := []
  get_rated_book_ids := fun _ => []
  get_high_rated_books_by_users := fun _ _ => []
  get_average_book_rating := fun _ => none
  get_popular_books := fun _ => []
  get_recent_books := fun _ => []
  get_user_rating := fun _ _ => none
  get_book_by_id := fun _ => none

/-- One user with one interest, two books, one of them already rated. -/
def db1 : DB :=
  { emptyDB with
      get_user_by_id := fun uid => if uid = 1 then some ⟨1, "u", ["a"]⟩ else none
      get_all_books := [⟨1, "t1", "au1", ["a"], "", none⟩, ⟨2, "t2", "au2", ["a"], "", none⟩]
      get_rated_book_ids := fun uid => if uid = 1 then [2] else [] }

/-- Target user 10 with two peers of similarity 0.6 and 0.4 who rated
book 100 with 4 and 5 stars respectively. -/
def c2db : DB :=
  { emptyDB with
      get_user_by_id := fun uid => if uid = 10 then some ⟨10, "t", ["a", "b", "c", "d", "e"]⟩ else none
      get_all_users :=
        [⟨10, "t", ["a", "b", "c", "d", "e"]⟩, ⟨11, "p1", ["a", "b", "c"]⟩, ⟨12, "p2", ["a", "b"]⟩]
      get_high_rated_books_by_users := fun _ _ =>
        [⟨100, "X", "ax", ["g"], "", 5, 12⟩, ⟨100, "X", "ax", ["g"], "", 4, 11⟩] }

/-- Three popular books, the third with zero ratings; the user has no
profile and no ratings. -/
def c4db : DB :=
  { emptyDB with
      get_popular_books := fun _ =>
        [⟨⟨1, "A", "a1", ["g"], "", some (9/2)⟩, 2⟩,
         ⟨⟨2, "B", "a2", ["g"], "", some 4⟩, 1⟩,
         ⟨⟨3, "C", "a3", ["g"], "", none⟩, 0⟩] }

/-- A user whose sole interest matches a book's genre only after
whitespace trimming. -/
def c8db : DB :=
  { emptyDB with
      get_user_by_id := fun uid => if uid = 1 then some ⟨1, "u", [" fantasy "]⟩ else none
      get_all_books := [⟨1, "t1", "au1", ["Fantasy"], "", none⟩] }

/-- A user whose sole interest matches a book's genre exactly. -/
def c8wdb : DB :=
  { emptyDB with
      get_user_by_id := fun uid => if uid = 1 then some ⟨1, "u", ["Fantasy"]⟩ else none
      get_all_books := [⟨1, "t1", "au1", ["Fantasy"], "", none⟩] }

/-- Target user 1 with one peer of exact Jaccard similarity 1/3 (rounded
to 0.333) who rated book 100 with 4 stars. -/
def c9db : DB :=
  { emptyDB with
      get_user_by_id := fun uid => if uid = 1 then some ⟨1, "t", ["a"]⟩ else none
      get_all_users := [⟨1, "t", ["a"]⟩, ⟨2, "p", ["a", "b", "c"]⟩]
      get_high_rated_books_by_users := fun _ _ => [⟨100, "X", "ax", ["g"], "", 4, 2⟩] }

/-- A user and a book that share the genre Fantasy; no peers, no
ratings. -/
def c10db : DB :=
  { emptyDB with
      get_user_by_id := fun uid => if uid = 1 then some ⟨1, "u", ["Fantasy"]⟩ else none
      get_book_by_id := fun bid => if bid = 1 then some ⟨1, "t1", "au1", ["Fantasy"], "", none⟩ else none }

/-! Lemmas about the sort-and-truncate pipeline shared by the engines. -/

theorem mem_sortByScoreDesc {r : Rec} {l : List Rec} : r ∈ sortByScoreDesc l ↔ r ∈ l :=
  List.mem_insertionSort scoreGE

theorem mem_of_mem_take_sort {r : Rec} {l : List Rec} {n : Nat}
    (h : r ∈ (sortByScoreDesc l).take n) : r ∈ l :=
  mem_sortByScoreDesc.mp (List.take_subset n _ h)

theorem pairwise_take_sort (l : List Rec) (n : Nat) :
    ((sortByScoreDesc l).take n).Pairwise scoreGE :=
  (List.sorted_insertionSort scoreGE l).sublist (List.take_sublist n _)

theorem length_take_sort (l : List Rec) (n : Nat) :
    ((sortByScoreDesc l).take n).length ≤ n :=
  List.length_take_le n _

/-! Membership characterization for the content-based engine. -/

theorem contentRecOf_some {db : DB} {interests : List String} {rated : List Nat} {book : Book}
    {rec : Rec} (h : contentRecOf db interests rated book = some rec) :
    book.id ∉ rated ∧ ¬ calculate_genre_overlap interests book.genres < MIN_SIMILARITY_THRESHOLD ∧
      rec = { book := { book with avg_rating := db.get_average_book_rating book.id }
              score := round3 (calculate_genre_overlap interests book.genres)
              reason :=
                if contentMatchingList interests book ≠ [] then
                  "Matches your interest in "
                    ++ joinSep ", " ((contentMatchingList interests book).take 3)
                else "Based on your reading preferences"
              recommendation_type := "content_based" } := by
  unfold contentRecOf at h
  by_cases h1 : book.id ∈ rated
  · simp [h1] at h
  · by_cases h2 : calculate_genre_overlap interests book.genres < MIN_SIMILARITY_THRESHOLD
    · simp [h1, h2] at h
    · refine ⟨h1, h2, ?_⟩
      simp only [if_neg h1, if_neg h2, Option.some.injEq] at h
      exact h.symm

theorem mem_content_based {db : DB} {user_id limit : Nat} {rec : Rec}
    (h : rec ∈ get_content_based_recommendations db user_id limit) :
    ∃ user book, db.get_user_by_id user_id = some user ∧ user.interests ≠ [] ∧
      book ∈ db.get_all_books ∧
      contentRecOf db user.interests (db.get_rated_book_ids user_id) book = some rec := by
  unfold get_content_based_recommendations at h
  cases hu : db.get_user_by_id user_id with
  | none => rw [hu] at h; simp at h
  | some user =>
    rw [hu] at h
    by_cases hi : user.interests = []
    · simp [hi] at h
    · simp only [if_neg hi] at h
      rcases List.mem_filterMap.mp (mem_of_mem_take_sort h) with ⟨book, hb, he⟩
      exact ⟨user, book, rfl, hi, hb, he⟩

/-! Membership characterization and aggregation invariant for the
collaborative engine. -/

/-- The sum of `similarity * (rating / 5)` over a contributor list. -/
def contribWeight (cs : List Contributor) : ℚ :=
  (cs.map (fun c => c.similarity * ((c.rating : ℚ) / 5))).sum

/-- The invariant of every entry of the `book_scores` association list:
the key was never rated by the target user, the stored book carries the
key as its id, and the running score is the sum of the contributors'
weighted ratings. -/
def AggOk (rated : List Nat) (kd : Nat × BookScoreData) : Prop :=
  kd.1 ∉ rated ∧ (∀ b, kd.2.book = some b → b.id = kd.1) ∧
    kd.2.score = contribWeight kd.2.contributors

theorem bsUpdate_inv {rated : List Nat} {k : Nat} {w : ℚ} {c : Contributor} {b : Book}
    (hk : k ∉ rated) (hb : b.id = k) (hw : w = c.similarity * ((c.rating : ℚ) / 5)) :
    ∀ l : List (Nat × BookScoreData), (∀ kd ∈ l, AggOk rated kd) →
      ∀ kd ∈ bsUpdate l k w c b, AggOk rated kd := by
  intro l
  induction l with
  | nil =>
    intro _ kd hkd
    simp only [bsUpdate, List.mem_singleton] at hkd
    subst hkd
    refine ⟨hk, ?_, ?_⟩
    · intro b' hb'
      simp only [Option.some.injEq] at hb'
      rw [← hb']; exact hb
    · simp [contribWeight, hw]
  | cons hd t ih =>
    rcases hd with ⟨k', d⟩
    intro hl kd hkd
    by_cases hkk : k' = k
    · simp only [bsUpdate, if_pos hkk, List.mem_cons] at hkd
      rcases hkd with hkd | hkd
      · subst hkd
        rcases hl ⟨k', d⟩ (List.mem_cons_self _ _) with ⟨_, _, hscore⟩
        refine ⟨hkk ▸ hk, ?_, ?_⟩
        · intro b' hb'
          simp only [Option.some.injEq] at hb'
          rw [← hb', hb, hkk]
        · simp only [contribWeight, List.map_append, List.sum_append]
          simp only [contribWeight] at hscore
          simp [hscore, hw]
      · exact hl kd (List.mem_cons_of_mem _ hkd)
    · simp only [bsUpdate, if_neg hkk, List.mem_cons] at hkd
      rcases hkd with hkd | hkd
      · exact hkd ▸ hl ⟨k', d⟩ (List.mem_cons_self _ _)
      · exact ih (fun x hx => hl x (List.mem_cons_of_mem _ hx)) kd hkd

theorem collabAggregate_ok (rated : List Nat) (sus : List SimilarUser) :
    ∀ (items : List RatedItem) (acc : List (Nat × BookScoreData)),
      (∀ kd ∈ acc, AggOk rated kd) →
      ∀ kd ∈ (items.foldl (fun acc item =>
          if item.id ∈ rated then acc
          else
            bsUpdate acc item.id
              (simLookup sus item.rated_by_user_id * ((item.rating : ℚ) / 5))
              ⟨item.rated_by_user_id, item.rating, simLookup sus item.rated_by_user_id⟩
              (itemBook item)) acc),
        AggOk rated kd := by
  intro items
  induction items with
  | nil => intro acc hacc kd hkd; exact hacc kd hkd
  | cons item rest ih =>
    intro acc hacc kd hkd
    simp only [List.foldl_cons] at hkd
    by_cases hmem : item.id ∈ rated
    · rw [if_pos hmem] at hkd
      exact ih acc hacc kd hkd
    · rw [if_neg hmem] at hkd
      exact ih (bsUpdate acc item.id
          (simLookup sus item.rated_by_user_id * ((item.rating : ℚ) / 5))
          ⟨item.rated_by_user_id, item.rating, simLookup sus item.rated_by_user_id⟩
          (itemBook item))
        (@bsUpdate_inv rated item.id
          (simLookup sus item.rated_by_user_id * ((item.rating : ℚ) / 5))
          ⟨item.rated_by_user_id, item.rating, simLookup sus item.rated_by_user_id⟩
          (itemBook item) hmem rfl rfl acc hacc) kd hkd

theorem mem_collabAggregate {rated : List Nat} {sus : List SimilarUser} {items : List RatedItem}
    {kd : Nat × BookScoreData} (h : kd ∈ collabAggregate rated sus items) : AggOk rated kd := by
  unfold collabAggregate at h
  exact collabAggregate_ok rated sus items [] (by simp) kd h

theorem collabRecOf_some {db : DB} {mp : ℚ} {kd : Nat × BookScoreData} {rec : Rec}
    (h : collabRecOf db mp kd = some rec) :
    ∃ book, kd.2.book = some book ∧
      rec = { book := { book with avg_rating := db.get_average_book_rating kd.1 }
              score := round3 (if 0 < mp then min (kd.2.score / mp) 1 else 0)
              reason :=
                if kd.2.contributors.length = 1 then
                  "Recommended by a reader with similar taste (rated "
                    ++ fmt0 (((kd.2.contributors.map (fun c => (c.rating : ℚ))).sum)
                        / (kd.2.contributors.length : ℚ)) ++ "★)"
                else
                  "Loved by " ++ toString kd.2.contributors.length
                    ++ " readers with similar taste (avg "
                    ++ fmt1 (((kd.2.contributors.map (fun c => (c.rating : ℚ))).sum)
                        / (kd.2.contributors.length : ℚ)) ++ "★)"
              recommendation_type := "collaborative"
              num_similar_users := some kd.2.contributors.length } := by
  unfold collabRecOf at h
  cases hb : kd.2.book with
  | none => rw [hb] at h; simp at h
  | some book =>
    rw [hb] at h
    simp only [Option.some.injEq] at h
    exact ⟨book, rfl, h.symm⟩

theorem mem_collaborative {db : DB} {user_id limit : Nat} {rec : Rec}
    (h : rec ∈ get_collaborative_recommendations db user_id limit) :
    ∃ kd, kd ∈ collabAggregate (db.get_rated_book_ids user_id)
        (find_similar_users db user_id MIN_SIMILARITY_THRESHOLD)
        (db.get_high_rated_books_by_users
          ((find_similar_users db user_id MIN_SIMILARITY_THRESHOLD).map (fun u => u.user_id)) 4) ∧
      collabRecOf db (max_possible (find_similar_users db user_id MIN_SIMILARITY_THRESHOLD)) kd
        = some rec := by
  unfold get_collaborative_recommendations at h
  by_cases h1 : find_similar_users db user_id MIN_SIMILARITY_THRESHOLD = []
  · simp [h1] at h
  · simp only [if_neg h1] at h
    by_cases h2 : db.get_high_rated_books_by_users
        ((find_similar_users db user_id MIN_SIMILARITY_THRESHOLD).map (fun u => u.user_id)) 4 = []
    · simp [h2] at h
    · simp only [if_neg h2] at h
      exact List.mem_filterMap.mp (mem_of_mem_take_sort h)

/-! Shape lemmas for the fallback composer. -/

theorem fallbackPopRecOf_some {rated : List Nat} {p : PopularBook} {rec : Rec}
    (h : fallbackPopRecOf rated p = some rec) :
    p.book.id ∉ rated ∧
      rec = { book := p.book
              score := (1 : ℚ)/2
              reason := if 0 < p.rating_count then "Popular among readers" else "Recently added"
              recommendation_type := "fallback" } := by
  unfold fallbackPopRecOf at h
  by_cases h1 : p.book.id ∈ rated
  · simp [h1] at h
  · simp only [if_neg h1, Option.some.injEq] at h
    exact ⟨h1, h.symm⟩

/-- What holds of every record the recent-books phase appends. -/
def RecentOk (rated : List Nat) (r : Rec) : Prop :=
  r.score = (3 : ℚ)/10 ∧ r.reason = "Recently added" ∧ r.recommendation_type = "fallback" ∧
    r.book.id ∉ rated

theorem fallbackRecent_fold (rated : List Nat) :
    ∀ (books : List Book) (acc : List Rec),
      ∃ extra, books.foldl (fallbackRecentStep rated) acc = acc ++ extra ∧
        ∀ r ∈ extra, RecentOk rated r := by
  intro books
  induction books with
  | nil => intro acc; exact ⟨[], by simp, by simp⟩
  | cons b bs ih =>
    intro acc
    simp only [List.foldl_cons]
    by_cases h1 : b.id ∈ rated
    · simpa only [fallbackRecentStep, if_pos h1] using ih acc
    · by_cases h2 : acc.any (fun r => r.book.id == b.id) = true
      · simpa only [fallbackRecentStep, if_neg h1, if_pos h2] using ih acc
      · rcases ih (acc ++ [(⟨b, (3 : ℚ)/10, "Recently added", "fallback", none⟩ : Rec)])
          with ⟨extra, he, hok⟩
        refine ⟨(⟨b, (3 : ℚ)/10, "Recently added", "fallback", none⟩ : Rec) :: extra, ?_, ?_⟩
        · simp only [fallbackRecentStep, if_neg h1, if_neg h2, he, List.append_assoc,
            List.singleton_append]
        · intro r hr
          rcases List.mem_cons.mp hr with hr | hr
          · subst hr; exact ⟨rfl, rfl, rfl, h1⟩
          · exact hok r hr

theorem fallback_shape (db : DB) (user_id limit : Nat) :
    ∃ extra, get_fallback_recommendations db user_id limit
        = ((db.get_popular_books limit).filterMap
            (fallbackPopRecOf (db.get_rated_book_ids user_id)) ++ extra).take limit ∧
      ∀ r ∈ extra, RecentOk (db.get_rated_book_ids user_id) r := by
  unfold get_fallback_recommendations
  simp only []
  by_cases h1 : ((db.get_popular_books limit).filterMap
      (fallbackPopRecOf (db.get_rated_book_ids user_id))).length < limit
  · rcases fallbackRecent_fold (db.get_rated_book_ids user_id) (db.get_recent_books limit)
      ((db.get_popular_books limit).filterMap (fallbackPopRecOf (db.get_rated_book_ids user_id)))
      with ⟨extra, he, hok⟩
    refine ⟨extra, ?_, hok⟩
    rw [if_pos h1, he]
  · refine ⟨[], ?_, by simp⟩
    rw [if_neg h1, List.append_nil]

/-! The home-feed loop keeps the feed free of duplicate book ids. -/

/-- The loop invariant: every feed book id has been recorded in `seen`,
and the feed ids are pairwise distinct. -/
def FeedOk (feed : List Rec) (seen : Finset Nat) : Prop :=
  (∀ r ∈ feed, r.book.id ∈ seen) ∧ (feed.map (fun r => r.book.id)).Nodup

theorem feedStep_fold_ok (idx : Nat) :
    ∀ (sources : List (List Rec)) (acc : List Rec × Finset Nat × Bool),
      FeedOk acc.1 acc.2.1 →
      FeedOk (sources.foldl (feedStep idx) acc).1 (sources.foldl (feedStep idx) acc).2.1 := by
  intro sources
  induction sources with
  | nil => intro acc h; exact h
  | cons s rest ih =>
    intro acc h
    simp only [List.foldl_cons]
    apply ih
    unfold feedStep
    rcases hs : s[idx]? with _ | r
    · exact h
    · by_cases hmem : r.book.id ∈ acc.2.1
      · simp only [if_pos hmem]; exact h
      · simp only [if_neg hmem]
        have hnotin : r.book.id ∉ acc.1.map (fun x => x.book.id) := by
          intro hin
          rcases List.mem_map.mp hin with ⟨x, hxmem, hxid⟩
          exact hmem (hxid ▸ h.1 x hxmem)
        constructor
        · intro x hx
          rcases List.mem_append.mp hx with hx | hx
          · exact Finset.mem_insert_of_mem (h.1 x hx)
          · simp only [List.mem_singleton] at hx
            subst hx
            exact Finset.mem_insert_self _ _
        · have hcons : (r.book.id :: acc.1.map (fun x => x.book.id)).Nodup :=
            List.nodup_cons.mpr ⟨hnotin, h.2⟩
          have hperm := List.perm_append_singleton r.book.id (acc.1.map (fun x => x.book.id))
          simpa only [List.map_append, List.map_cons, List.map_nil] using
            hcons.perm hperm.symm

theorem feedLoop_nodup (sources : List (List Rec)) (limit : Nat) :
    ∀ (fuel idx : Nat) (feed : List Rec) (seen : Finset Nat),
      limit - feed.length ≤ fuel → FeedOk feed seen →
      ((feedLoop sources limit idx feed seen).map (fun r => r.book.id)).Nodup := by
  intro fuel
  induction fuel with
  | zero =>
    intro idx feed seen hfuel hok
    rw [feedLoop, if_neg (by omega)]
    exact hok.2
  | succ n ih =>
    intro idx feed seen hfuel hok
    rw [feedLoop]
    by_cases hlt : feed.length < limit
    · rw [if_pos hlt]
      have hfo := feedStep_fold_ok idx sources (feed, seen, false) hok
      by_cases h2 : (onePass sources idx feed seen).2.2 = true
      · rw [dif_pos h2]
        apply ih
        · have := onePass_length_lt sources idx feed seen h2
          omega
        · exact hfo
      · rw [dif_neg h2]
        exact hfo.2
    · rw [if_neg hlt]
      exact hok.2

/-! String lemmas for the explanation builder. -/

theorem append_ne_empty_left {a : String} (b : String) (h : a ≠ "") : a ++ b ≠ "" := by
  intro he
  apply h
  have hd : (a ++ b).data = [] := by rw [he]
  rw [String.data_append] at hd
  rcases List.append_eq_nil.mp hd with ⟨h1, _⟩
  cases a
  simp only at h1
  rw [h1]

theorem joinSep_ne_empty (sep : String) :
    ∀ l : List String, l ≠ [] → (∀ c ∈ l, c ≠ "") → joinSep sep l ≠ "" := by
  intro l
  match l with
  | [] => intro h _; exact absurd rfl h
  | [x] =>
    intro _ hc
    simpa only [joinSep] using hc x (List.mem_singleton_self x)
  | x :: y :: t =>
    intro _ hc
    show x ++ sep ++ joinSep sep (y :: t) ≠ ""
    exact append_ne_empty_left _ (append_ne_empty_left _ (hc x (List.mem_cons_self _ _)))

theorem firstPeerClause_ne_empty (db : DB) (book_id : Nat) :
    ∀ (l : List SimilarUser) (s : String), firstPeerClause db book_id l = some s → s ≠ "" := by
  intro l
  induction l with
  | nil => intro s h; simp [firstPeerClause] at h
  | cons u rest ih =>
    intro s h
    unfold firstPeerClause at h
    rcases hr : db.get_user_rating u.user_id book_id with _ | rating
    · simp only [hr] at h; exact ih s h
    · simp only [hr] at h
      by_cases h4 : 4 ≤ rating
      · rw [if_pos h4] at h
        simp only [Option.some.injEq] at h
        rw [← h]
        exact append_ne_empty_left _ (append_ne_empty_left _ (by decide))
      · rw [if_neg h4] at h
        exact ih s h

/-! Per-engine length and sortedness lemmas. -/

theorem content_length_le (db : DB) (user_id limit : Nat) :
    (get_content_based_recommendations db user_id limit).length ≤ limit := by
  unfold get_content_based_recommendations
  split
  · simp
  · simp only []
    split
    · simp
    · exact length_take_sort _ _

theorem content_sorted (db : DB) (user_id limit : Nat) :
    (get_content_based_recommendations db user_id limit).Pairwise scoreGE := by
  unfold get_content_based_recommendations
  split
  · exact List.Pairwise.nil
  · simp only []
    split
    · exact List.Pairwise.nil
    · exact pairwise_take_sort _ _

theorem collab_length_le (db : DB) (user_id limit : Nat) :
    (get_collaborative_recommendations db user_id limit).length ≤ limit := by
  unfold get_collaborative_recommendations
  simp only []
  split
  · simp
  · split
    · simp
    · exact length_take_sort _ _

theorem collab_sorted (db : DB) (user_id limit : Nat) :
    (get_collaborative_recommendations db user_id limit).Pairwise scoreGE := by
  unfold get_collaborative_recommendations
  simp only []
  split
  · exact List.Pairwise.nil
  · split
    · exact List.Pairwise.nil
    · exact pairwise_take_sort _ _

theorem fallback_length_le (db : DB) (user_id limit : Nat) :
    (get_fallback_recommendations db user_id limit).length ≤ limit := by
  unfold get_fallback_recommendations
  exact List.length_take_le _ _

/-! Membership characterization for `find_similar_users`. -/

theorem mem_sortBySimilarityDesc {u : SimilarUser} {l : List SimilarUser} :
    u ∈ sortBySimilarityDesc l ↔ u ∈ l :=
  List.mem_insertionSort simGE

theorem mem_find_similar_users {db : DB} {user_id : Nat} {ms : ℚ} {su : SimilarUser}
    (h : su ∈ find_similar_users db user_id ms) :
    ∃ target peer, db.get_user_by_id user_id = some target ∧ peer ∈ db.get_all_users ∧
      peer.id ≠ user_id ∧ su.user_id = peer.id ∧
      ms ≤ jaccard_similarity (normalize_genres target.interests) (normalize_genres peer.interests) ∧
      su.similarity = round3 (jaccard_similarity (normalize_genres target.interests)
        (normalize_genres peer.interests)) := by
  unfold find_similar_users at h
  cases hu : db.get_user_by_id user_id with
  | none => rw [hu] at h; simp at h
  | some target =>
    rw [hu] at h
    by_cases hti : normalize_genres target.interests = ∅
    · simp [hti] at h
    · simp only [if_neg hti] at h
      rcases List.mem_filterMap.mp (mem_sortBySimilarityDesc.mp h) with ⟨peer, hpmem, heq⟩
      by_cases hpid : peer.id = user_id
      · simp [hpid] at heq
      · rw [if_neg hpid] at heq
        by_cases hpi : normalize_genres peer.interests = ∅
        · simp [hpi] at heq
        · rw [if_neg hpi] at heq
          by_cases hsim : ms ≤ jaccard_similarity (normalize_genres target.interests)
              (normalize_genres peer.interests)
          · rw [if_pos hsim] at heq
            simp only [Option.some.injEq] at heq
            refine ⟨target, peer, rfl, hpmem, hpid, ?_, hsim, ?_⟩
            · rw [← heq]
            · rw [← heq]
          · rw [if_neg hsim] at heq
            simp at heq

/-! Clause facts for `explain_recommendation`. -/

theorem genreClause_facts (user : User) (book : Book) :
    (genreClause user book).length ≤ 1 ∧ ∀ c ∈ genreClause user book, c ≠ "" := by
  unfold genreClause
  simp only []
  split
  · refine ⟨by simp, ?_⟩
    intro c hc
    simp only [List.mem_singleton] at hc
    subst hc
    exact append_ne_empty_left _ (by decide)
  · exact ⟨by simp, by simp⟩

theorem popClause_facts (db : DB) (book_id : Nat) :
    (popClause db book_id).length ≤ 1 ∧ ∀ c ∈ popClause db book_id, c ≠ "" := by
  unfold popClause
  split
  · split
    · refine ⟨by simp, ?_⟩
      intro c hc
      simp only [List.mem_singleton] at hc
      subst hc
      exact append_ne_empty_left _ (append_ne_empty_left _ (by decide))
    · exact ⟨by simp, by simp⟩
  · exact ⟨by simp, by simp⟩

theorem explainClauses_facts (db : DB) (user_id book_id : Nat) (user : User) (book : Book) :
    (explainClauses db user_id book_id user book).length ≤ 3 ∧
      ∀ c ∈ explainClauses db user_id book_id user book, c ≠ "" := by
  unfold explainClauses
  rcases genreClause_facts user book with ⟨hg1, hg2⟩
  rcases popClause_facts db book_id with ⟨hp1, hp2⟩
  have hpeer1 : ((firstPeerClause db book_id
      ((find_similar_users db user_id MIN_SIMILARITY_THRESHOLD).take 5)).toList).length ≤ 1 := by
    cases firstPeerClause db book_id
        ((find_similar_users db user_id MIN_SIMILARITY_THRESHOLD).take 5) <;> simp
  have hpeer2 : ∀ c ∈ (firstPeerClause db book_id
      ((find_similar_users db user_id MIN_SIMILARITY_THRESHOLD).take 5)).toList, c ≠ "" := by
    cases hf : firstPeerClause db book_id
        ((find_similar_users db user_id MIN_SIMILARITY_THRESHOLD).take 5) with
    | none => simp
    | some s =>
      intro c hc
      simp only [Option.toList_some, List.mem_singleton] at hc
      subst hc
      exact firstPeerClause_ne_empty db book_id _ c hf
  constructor
  · simp only [List.length_append]
    omega
  · intro c hc
    rcases List.mem_append.mp hc with hc | hc
    · rcases List.mem_append.mp hc with hc | hc
      · exact hg2 c hc
      · exact hpeer2 c hc
    · exact hp2 c hc

/-! The claims. -/

/-- C1: for every data layer, user and limit, a book the user has
already rated never appears in any of the three lists returned by
`get_recommendations`: the content-based engine, the collaborative
engine and the fallback composer each skip every book whose id is among
the user's rated book ids. -/
theorem c1_rated_books_never_recommended (db : DB) (user_id limit : Nat) (rec : Rec)
    (h : rec ∈ (get_recommendations db user_id limit).content_based ∨
      rec ∈ (get_recommendations db user_id limit).collaborative ∨
      rec ∈ (get_recommendations db user_id limit).fallback) :
    rec.book.id ∉ db.get_rated_book_ids user_id := by
  rcases h with h | h | h
  · have h' : rec ∈ get_content_based_recommendations db user_id limit := h
    rcases mem_content_based h' with ⟨user, book, _, _, _, he⟩
    rcases contentRecOf_some he with ⟨hid, _, hrec⟩
    rw [hrec]
    exact hid
  · have h' : rec ∈ get_collaborative_recommendations db user_id limit := h
    rcases mem_collaborative h' with ⟨kd, hmem, hsome⟩
    rcases mem_collabAggregate hmem with ⟨hk, hbid, _⟩
    rcases collabRecOf_some hsome with ⟨book, hb, hrec⟩
    rw [hrec]
    show book.id ∉ db.get_rated_book_ids user_id
    rw [hbid book hb]
    exact hk
  · have h' : rec ∈ (if get_content_based_recommendations db user_id limit = [] ∧
        get_collaborative_recommendations db user_id limit = [] then
        get_fallback_recommendations db user_id limit else []) := h
    by_cases hc : get_content_based_recommendations db user_id limit = [] ∧
        get_collaborative_recommendations db user_id limit = []
    · rw [if_pos hc] at h'
      rcases fallback_shape db user_id limit with ⟨extra, heq, hok⟩
      rw [heq] at h'
      rcases List.mem_append.mp (List.take_subset _ _ h') with h3 | h3
      · rcases List.mem_filterMap.mp h3 with ⟨p, _, hp⟩
        rcases fallbackPopRecOf_some hp with ⟨hid, hrec⟩
        rw [hrec]
        exact hid
      · exact (hok rec h3).2.2.2
    · rw [if_neg hc] at h'
      simp at h'

/-- Witness for C1: on a data layer where user 1 rated book 2, the
content-based list contains book 1 and the theorem yields that its id is
not among the rated ids. -/
theorem c1_witness :
    ((⟨⟨1, "t1", "au1", ["a"], "", none⟩, 1, "Matches your interest in a",
        "content_based", none⟩ : Rec) ∈ (get_recommendations db1 1 5).content_based) ∧
    (⟨⟨1, "t1", "au1", ["a"], "", none⟩, 1, "Matches your interest in a",
        "content_based", none⟩ : Rec).book.id ∉ db1.get_rated_book_ids 1 :=
  ⟨by decide, c1_rated_books_never_recommended db1 1 5 _ (Or.inl (by decide))⟩

/-- C3: `get_recommendations` returns exactly the three labeled lists
(content_based and collaborative are the two engines' outputs), and the
fallback list is non-empty only when both engines returned nothing:
whenever either engine produced a recommendation, fallback is empty. -/
theorem c3_three_lists_and_fallback_gate (db : DB) (user_id limit : Nat) :
    ((get_recommendations db user_id limit).content_based
        = get_content_based_recommendations db user_id limit ∧
      (get_recommendations db user_id limit).collaborative
        = get_collaborative_recommendations db user_id limit) ∧
    (((get_recommendations db user_id limit).content_based ≠ [] ∨
        (get_recommendations db user_id limit).collaborative ≠ []) →
      (get_recommendations db user_id limit).fallback = []) := by
  refine ⟨⟨rfl, rfl⟩, ?_⟩
  intro h
  have hne : ¬(get_content_based_recommendations db user_id limit = [] ∧
      get_collaborative_recommendations db user_id limit = []) := by
    rcases h with h | h
    · intro hc; exact h hc.1
    · intro hc; exact h hc.2
  show (if get_content_based_recommendations db user_id limit = [] ∧
      get_collaborative_recommendations db user_id limit = [] then
      get_fallback_recommendations db user_id limit else []) = []
  rw [if_neg hne]

/-- Witness for C3: on `db1` the content-based list is non-empty and the
theorem yields an empty fallback list. -/
theorem c3_witness :
    (get_recommendations db1 1 5).content_based ≠ [] ∧
      (get_recommendations db1 1 5).fallback = [] :=
  ⟨by decide, (c3_three_lists_and_fallback_gate db1 1 5).2 (Or.inl (by decide))⟩
theorem fallback_sorted (db : DB) (user_id limit : Nat) :
    (get_fallback_recommendations db user_id limit).Pairwise scoreGE := by
  rcases fallback_shape db user_id limit with ⟨extra, heq, hok⟩
  rw [heq]
  apply List.Pairwise.sublist (List.take_sublist _ _)
  rw [List.pairwise_append]
  refine ⟨?_, ?_, ?_⟩
  · apply List.pairwise_of_forall_mem_list
    intro a ha b hb
    rcases List.mem_filterMap.mp ha with ⟨p, _, hp⟩
    rcases List.mem_filterMap.mp hb with ⟨q, _, hq⟩
    have hsa : a.score = (1 : ℚ)/2 := by rw [(fallbackPopRecOf_some hp).2]
    have hsb : b.score = (1 : ℚ)/2 := by rw [(fallbackPopRecOf_some hq).2]
    show b.score ≤ a.score
    rw [hsa, hsb]
  · apply List.pairwise_of_forall_mem_list
    intro a ha b hb
    show b.score ≤ a.score
    rw [(hok a ha).1, (hok b hb).1]
  · intro a ha b hb
    rcases List.mem_filterMap.mp ha with ⟨p, _, hp⟩
    have hsa : a.score = (1 : ℚ)/2 := by rw [(fallbackPopRecOf_some hp).2]
    show b.score ≤ a.score
    rw [hsa, (hok b hb).1]
    norm_num

/-- C6: for every data layer, user and non-negative limit, each of the
three lists returned by `get_recommendations` has length at most the
limit, and within each list the score field is non-increasing from the
first entry to the last. -/
theorem c6_length_bounded_and_sorted (db : DB) (user_id limit : Nat) :
    ((get_recommendations db user_id limit).content_based.length ≤ limit ∧
      (get_recommendations db user_id limit).collaborative.length ≤ limit ∧
      (get_recommendations db user_id limit).fallback.length ≤ limit) ∧
    ((get_recommendations db user_id limit).content_based.Pairwise
        (fun a b => b.score ≤ a.score) ∧
      (get_recommendations db user_id limit).collaborative.Pairwise
        (fun a b => b.score ≤ a.score) ∧
      (get_recommendations db user_id limit).fallback.Pairwise
        (fun a b => b.score ≤ a.score)) := by
  refine ⟨⟨content_length_le db user_id limit, collab_length_le db user_id limit, ?_⟩,
    ⟨content_sorted db user_id limit, collab_sorted db user_id limit, ?_⟩⟩
  · show (if get_content_based_recommendations db user_id limit = [] ∧
        get_collaborative_recommendations db user_id limit = [] then
        get_fallback_recommendations db user_id limit else []).length ≤ limit
    split
    · exact fallback_length_le db user_id limit
    · simp
  · show (if get_content_based_recommendations db user_id limit = [] ∧
        get_collaborative_recommendations db user_id limit = [] then
        get_fallback_recommendations db user_id limit else []).Pairwise
        (fun a b => b.score ≤ a.score)
    split
    · exact fallback_sorted db user_id limit
    · exact List.Pairwise.nil

/-- C5: for every data layer, user and limit, the personalized home feed
contains no two entries with the same book id and has length at most the
limit (the feed is the round-robin interleaving `feedLoop` of the three
source lists in priority order, truncated to the limit). -/
theorem c5_home_feed_nodup_and_bounded (db : DB) (user_id limit : Nat) :
    ((get_personalized_home_feed db user_id limit).map (fun r => r.book.id)).Nodup ∧
    (get_personalized_home_feed db user_id limit).length ≤ limit := by
  unfold get_personalized_home_feed
  simp only []
  constructor
  · rw [List.map_take]
    exact List.Nodup.sublist (List.take_sublist _ _)
      (feedLoop_nodup _ limit limit 0 [] ∅ (by simp) ⟨by simp, by simp⟩)
  · exact List.length_take_le _ _
/-- C4: every fallback recommendation is tagged `fallback`, excludes
books the user has rated, and is either a popular-phase record (score
0.5, reason "Popular among readers", or "Recently added" when the book
has zero ratings) or a recent-phase record (score 0.3, reason "Recently
added"); concretely, a user with no profile and no ratings, given 3
popular books the third of which has zero ratings and limit 3, gets
exactly those 3 books tagged fallback with the corresponding reasons. -/
theorem c4_fallback_composition :
    (∀ (db : DB) (user_id limit : Nat) (rec : Rec),
      rec ∈ get_fallback_recommendations db user_id limit →
      rec.recommendation_type = "fallback" ∧ rec.book.id ∉ db.get_rated_book_ids user_id ∧
        ((rec.score = (1 : ℚ)/2 ∧ ∃ p ∈ db.get_popular_books limit, rec.book = p.book ∧
            rec.reason
              = (if 0 < p.rating_count then "Popular among readers" else "Recently added")) ∨
          (rec.score = (3 : ℚ)/10 ∧ rec.reason = "Recently added"))) ∧
    (get_fallback_recommendations c4db 7 3).map
        (fun r => (r.book.id, r.score, r.reason, r.recommendation_type))
      = [(1, 1/2, "Popular among readers", "fallback"),
         (2, 1/2, "Popular among readers", "fallback"),
         (3, 1/2, "Recently added", "fallback")] := by
  constructor
  · intro db user_id limit rec h
    rcases fallback_shape db user_id limit with ⟨extra, heq, hok⟩
    rw [heq] at h
    rcases List.mem_append.mp (List.take_subset _ _ h) with h3 | h3
    · rcases List.mem_filterMap.mp h3 with ⟨p, hpmem, hp⟩
      rcases fallbackPopRecOf_some hp with ⟨hid, hrec⟩
      subst hrec
      exact ⟨rfl, hid, Or.inl ⟨rfl, p, hpmem, rfl, rfl⟩⟩
    · rcases hok rec h3 with ⟨hs, hr, ht, hid⟩
      exact ⟨ht, hid, Or.inr ⟨hs, hr⟩⟩
  · decide

/-- Witness for C4: the first popular book of `c4db` appears in the
fallback list and the theorem yields its tag, exclusion and
popular-phase shape. -/
theorem c4_witness :
    ((⟨⟨1, "A", "a1", ["g"], "", some (9/2)⟩, 1/2, "Popular among readers",
        "fallback", none⟩ : Rec) ∈ get_fallback_recommendations c4db 7 3) ∧
    ((⟨⟨1, "A", "a1", ["g"], "", some (9/2)⟩, 1/2, "Popular among readers",
        "fallback", none⟩ : Rec).recommendation_type = "fallback" ∧
      (⟨⟨1, "A", "a1", ["g"], "", some (9/2)⟩, 1/2, "Popular among readers",
        "fallback", none⟩ : Rec).book.id ∉ c4db.get_rated_book_ids 7 ∧
      (((⟨⟨1, "A", "a1", ["g"], "", some (9/2)⟩, 1/2, "Popular among readers",
          "fallback", none⟩ : Rec).score = (1 : ℚ)/2 ∧
        ∃ p ∈ c4db.get_popular_books 3,
          (⟨⟨1, "A", "a1", ["g"], "", some (9/2)⟩, 1/2, "Popular among readers",
            "fallback", none⟩ : Rec).book = p.book ∧
          (⟨⟨1, "A", "a1", ["g"], "", some (9/2)⟩, 1/2, "Popular among readers",
            "fallback", none⟩ : Rec).reason
            = (if 0 < p.rating_count then "Popular among readers" else "Recently added")) ∨
       ((⟨⟨1, "A", "a1", ["g"], "", some (9/2)⟩, 1/2, "Popular among readers",
          "fallback", none⟩ : Rec).score = (3 : ℚ)/10 ∧
        (⟨⟨1, "A", "a1", ["g"], "", some (9/2)⟩, 1/2, "Popular among readers",
          "fallback", none⟩ : Rec).reason = "Recently added"))) :=
  ⟨by decide, c4_fallback_composition.1 c4db 7 3 _ (by decide)⟩
/-- C2: in the collaborative engine, every returned recommendation
comes from an entry of the engine's own `book_scores` aggregation (the
`collabAggregate` of the user's rated ids, the kept peers and the
highly-rated items) keyed by the returned book's id; that entry's total
is the sum over its contributing (peer, rating) pairs of
`peerSimilarity * (rating / 5)`, and the returned score is `round3` of
`min(entryTotal / maxPossible, 1)` (0 when `maxPossible` is 0) where
`maxPossible` is the sum of the kept peers' similarities; concretely,
two peers with similarities 0.6 and 0.4 who rated the same book 4 and 5
give weighted total 0.88, maxPossible 1.0 and normalized score 0.88. -/
theorem c2_collaborative_score_formula :
    (∀ (db : DB) (user_id limit : Nat) (rec : Rec),
      rec ∈ get_collaborative_recommendations db user_id limit →
      ∃ kd, kd ∈ collabAggregate (db.get_rated_book_ids user_id)
          (find_similar_users db user_id MIN_SIMILARITY_THRESHOLD)
          (db.get_high_rated_books_by_users
            ((find_similar_users db user_id MIN_SIMILARITY_THRESHOLD).map (fun u => u.user_id))
            4) ∧
        kd.1 = rec.book.id ∧
        kd.2.score = contribWeight kd.2.contributors ∧
        rec.score = round3
          (if 0 < max_possible (find_similar_users db user_id MIN_SIMILARITY_THRESHOLD) then
            min (kd.2.score / max_possible (find_similar_users db user_id MIN_SIMILARITY_THRESHOLD)) 1
          else 0)) ∧
    ((find_similar_users c2db 10 MIN_SIMILARITY_THRESHOLD).map (fun u => u.similarity)
        = [3/5, 2/5] ∧
      max_possible (find_similar_users c2db 10 MIN_SIMILARITY_THRESHOLD) = 1 ∧
      (collabAggregate (c2db.get_rated_book_ids 10)
          (find_similar_users c2db 10 MIN_SIMILARITY_THRESHOLD)
          (c2db.get_high_rated_books_by_users
            ((find_similar_users c2db 10 MIN_SIMILARITY_THRESHOLD).map (fun u => u.user_id)) 4)).map
          (fun kd => (kd.1, kd.2.score)) = [(100, 22/25)] ∧
      (get_collaborative_recommendations c2db 10 10).map (fun r => r.score) = [22/25]) := by
  constructor
  · intro db user_id limit rec h
    rcases mem_collaborative h with ⟨kd, hmem, hsome⟩
    have hagg := mem_collabAggregate hmem
    rcases collabRecOf_some hsome with ⟨book, hb, hrec⟩
    refine ⟨kd, hmem, ?_, hagg.2.2, ?_⟩
    · rw [hrec]
      exact (hagg.2.1 book hb).symm
    · rw [hrec]
  · exact ⟨by decide, by decide, by decide, by decide⟩

/-- Witness for C2: the record returned for `c2db` comes from the
engine's aggregation entry keyed by its book id 100, whose total is the
contributors' weighted sum, and its output score 22/25 matches the
normalization formula applied to that total. -/
theorem c2_witness :
    ((⟨⟨100, "X", "ax", ["g"], "", none⟩, 22/25,
        "Loved by 2 readers with similar taste (avg 4.5★)", "collaborative", some 2⟩ : Rec)
      ∈ get_collaborative_recommendations c2db 10 10) ∧
    (∃ kd, kd ∈ collabAggregate (c2db.get_rated_book_ids 10)
        (find_similar_users c2db 10 MIN_SIMILARITY_THRESHOLD)
        (c2db.get_high_rated_books_by_users
          ((find_similar_users c2db 10 MIN_SIMILARITY_THRESHOLD).map (fun u => u.user_id)) 4) ∧
      kd.1 = (⟨⟨100, "X", "ax", ["g"], "", none⟩, 22/25,
        "Loved by 2 readers with similar taste (avg 4.5★)", "collaborative", some 2⟩ : Rec).book.id ∧
      kd.2.score = contribWeight kd.2.contributors ∧
      (⟨⟨100, "X", "ax", ["g"], "", none⟩, 22/25,
        "Loved by 2 readers with similar taste (avg 4.5★)", "collaborative", some 2⟩ : Rec).score
        = round3
          (if 0 < max_possible (find_similar_users c2db 10 MIN_SIMILARITY_THRESHOLD) then
            min (kd.2.score / max_possible (find_similar_users c2db 10 MIN_SIMILARITY_THRESHOLD)) 1
          else 0)) :=
  ⟨by decide, c2_collaborative_score_formula.1 c2db 10 10 _ (by decide)⟩
/-- C9: every similar-user record carries as its similarity the
3-decimal rounding of the exact Jaccard similarity between the target's
and the peer's normalized interests, and the collaborative arithmetic is
computed from those stored rounded values: each weighted contribution
uses the rounded similarity and `maxPossible` is the sum of the rounded
similarities; concretely, a peer with exact Jaccard 1/3 enters every
downstream computation as 333/1000 ≠ 1/3. -/
theorem c9_rounded_similarity_used :
    (∀ (db : DB) (user_id : Nat) (ms : ℚ) (su : SimilarUser),
      su ∈ find_similar_users db user_id ms →
      ∃ target peer, db.get_user_by_id user_id = some target ∧ peer ∈ db.get_all_users ∧
        su.user_id = peer.id ∧
        su.similarity = round3 (jaccard_similarity (normalize_genres target.interests)
          (normalize_genres peer.interests))) ∧
    (∀ sus : List SimilarUser, max_possible sus = (sus.map (fun u => u.similarity)).sum) ∧
    (jaccard_similarity (normalize_genres ["a"]) (normalize_genres ["a", "b", "c"]) = 1/3 ∧
      (find_similar_users c9db 1 MIN_SIMILARITY_THRESHOLD).map (fun u => u.similarity)
        = [333/1000] ∧
      (333 : ℚ)/1000 ≠ 1/3 ∧
      max_possible (find_similar_users c9db 1 MIN_SIMILARITY_THRESHOLD) = 333/1000 ∧
      (collabAggregate (c9db.get_rated_book_ids 1)
          (find_similar_users c9db 1 MIN_SIMILARITY_THRESHOLD)
          (c9db.get_high_rated_books_by_users
            ((find_similar_users c9db 1 MIN_SIMILARITY_THRESHOLD).map (fun u => u.user_id)) 4)).map
          (fun kd => kd.2.score) = [333/1000 * (4/5)] ∧
      (get_collaborative_recommendations c9db 1 10).map (fun r => r.score) = [4/5]) := by
  refine ⟨?_, fun sus => rfl, by decide, by decide, by decide, by decide, by decide, by decide⟩
  intro db user_id ms su h
  rcases mem_find_similar_users h with ⟨target, peer, h1, h2, _, h4, _, h6⟩
  exact ⟨target, peer, h1, h2, h4, h6⟩

/-- Witness for C9: the peer record of `c9db` carries similarity
333/1000, the rounding of its exact Jaccard similarity 1/3. -/
theorem c9_witness :
    ((⟨2, "p", 333/1000, ["a"]⟩ : SimilarUser)
        ∈ find_similar_users c9db 1 MIN_SIMILARITY_THRESHOLD) ∧
    (∃ target peer, c9db.get_user_by_id 1 = some target ∧ peer ∈ c9db.get_all_users ∧
      (⟨2, "p", 333/1000, ["a"]⟩ : SimilarUser).user_id = peer.id ∧
      (⟨2, "p", 333/1000, ["a"]⟩ : SimilarUser).similarity
        = round3 (jaccard_similarity (normalize_genres target.interests)
            (normalize_genres peer.interests))) :=
  ⟨by decide, c9_rounded_similarity_used.1 c9db 1 MIN_SIMILARITY_THRESHOLD _ (by decide)⟩
/-- C7 counterexample: `jaccard_similarity` does not normalize its
inputs, so on the label sets {"A"} and {"a"} it returns 0, not the 1 the
claim asserts. -/
theorem c7_counterexample :
    jaccard_similarity {"A"} {"a"} = 0 ∧ ¬ jaccard_similarity {"A"} {"a"} = 1 := by decide

/-- C7 amended: `jaccard_similarity` computes intersection over union on
its input sets exactly as given, returning 0 when both sets are empty
and when the union is empty; the lowercasing, trimming and
falsy-filtering happen one level up, in `calculate_genre_overlap` (via
`normalize_genres`), which is therefore the function insensitive to
casing and surrounding whitespace (e.g. genreOverlap(["A"], ["a"]) = 1),
while jaccard itself distinguishes "A" from "a". -/
theorem c7_amended :
    jaccard_similarity ∅ ∅ = 0 ∧
    (∀ set1 set2 : Finset String, set1 ∪ set2 = ∅ → jaccard_similarity set1 set2 = 0) ∧
    (∀ user_interests book_genres : List String,
      calculate_genre_overlap user_interests book_genres
        = jaccard_similarity (normalize_genres user_interests) (normalize_genres book_genres)) ∧
    calculate_genre_overlap ["A"] ["a"] = 1 ∧
    calculate_genre_overlap [" Fantasy "] ["fantasy"] = 1 ∧
    jaccard_similarity {"A"} {"a"} = 0 := by
  refine ⟨by decide, ?_, fun _ _ => rfl, by decide, by decide, by decide⟩
  intro set1 set2 h
  rcases Finset.union_eq_empty.mp h with ⟨h1, h2⟩
  subst h1
  subst h2
  decide

/-- Witness for C7's amended theorem: the union-empty hypothesis holds
at the empty sets, where jaccard returns 0. -/
theorem c7_witness :
    ((∅ : Finset String) ∪ ∅ = ∅) ∧ jaccard_similarity ∅ ∅ = 0 :=
  ⟨by decide, c7_amended.2.1 ∅ ∅ (by decide)⟩

/-- C8 counterexample: for a user whose sole interest is " fantasy "
(with surrounding spaces) and a book with genre "Fantasy", the
content-based engine returns the book with score 1 (the normalized
overlap is total) yet with the generic reason, because the
reason-building overlap lowercases but does not trim — so the generic
reason does occur with score > 0, contradicting the claim. -/
theorem c8_counterexample :
    (get_content_based_recommendations c8db 1 5).map (fun r => (r.score, r.reason))
      = [(1, "Based on your reading preferences")] := by decide
theorem mem_contentMatchingList {interests : List String} {book : Book} {g : String}
    (h : g ∈ contentMatchingList interests book) :
    g ∈ book.genres ∧ lowerStr g ∈ interests.map lowerStr := by
  unfold contentMatchingList at h
  simp only [] at h
  rcases List.mem_filter.mp h with ⟨h1, h2⟩
  refine ⟨h1, ?_⟩
  rcases Finset.mem_inter.mp (of_decide_eq_true h2) with ⟨ha, _⟩
  exact List.mem_toFinset.mp ha

/-- C8 amended: every content-based recommendation's reason is computed
from the lowercase-only (not whitespace-trimmed) overlap between the
user's interests and the book's genres: when that overlap is non-empty
the reason names its first at-most-3 genres in the book's display
casing, each a book genre whose lowercased form appears among the
lowercased interests; when that overlap is empty the generic reason is
used — which, unlike the claim's assertion, can happen with score > 0,
because the score's overlap is additionally whitespace-trimmed. -/
theorem c8_reason_from_untrimmed_overlap (db : DB) (user_id limit : Nat) (rec : Rec) (user : User)
    (hu : db.get_user_by_id user_id = some user)
    (h : rec ∈ get_content_based_recommendations db user_id limit) :
    ∃ book ∈ db.get_all_books, rec.book.genres = book.genres ∧
      ((contentMatchingList user.interests book = [] ∧
          rec.reason = "Based on your reading preferences") ∨
        (contentMatchingList user.interests book ≠ [] ∧
          rec.reason = "Matches your interest in "
            ++ joinSep ", " ((contentMatchingList user.interests book).take 3) ∧
          (contentMatchingList user.interests book).take 3 ≠ [] ∧
          ((contentMatchingList user.interests book).take 3).length ≤ 3 ∧
          ∀ g ∈ (contentMatchingList user.interests book).take 3,
            g ∈ book.genres ∧ lowerStr g ∈ user.interests.map lowerStr)) := by
  rcases mem_content_based h with ⟨user', book, hu', _, hb, he⟩
  rw [hu] at hu'
  injection hu' with huser
  subst huser
  rcases contentRecOf_some he with ⟨_, _, hrec⟩
  subst hrec
  refine ⟨book, hb, rfl, ?_⟩
  by_cases hm : contentMatchingList user.interests book = []
  · left
    refine ⟨hm, ?_⟩
    show (if contentMatchingList user.interests book ≠ [] then
        "Matches your interest in "
          ++ joinSep ", " ((contentMatchingList user.interests book).take 3)
      else "Based on your reading preferences") = "Based on your reading preferences"
    rw [if_neg (not_not_intro hm)]
  · right
    refine ⟨hm, ?_, ?_, List.length_take_le _ _, ?_⟩
    · show (if contentMatchingList user.interests book ≠ [] then
          "Matches your interest in "
            ++ joinSep ", " ((contentMatchingList user.interests book).take 3)
        else "Based on your reading preferences")
        = "Matches your interest in "
            ++ joinSep ", " ((contentMatchingList user.interests book).take 3)
      rw [if_pos hm]
    · cases hml : contentMatchingList user.interests book with
      | nil => exact absurd hml hm
      | cons a t => simp [hml]
    · intro g hg
      exact mem_contentMatchingList (List.take_subset _ _ hg)

/-- Witness for C8's amended theorem: on `c8wdb` the interest "Fantasy"
matches the book's genre exactly, the returned reason names it, and the
theorem yields the non-generic branch. -/
theorem c8_witness :
    (c8wdb.get_user_by_id 1 = some ⟨1, "u", ["Fantasy"]⟩) ∧
    ((⟨⟨1, "t1", "au1", ["Fantasy"], "", none⟩, 1, "Matches your interest in Fantasy",
        "content_based", none⟩ : Rec) ∈ get_content_based_recommendations c8wdb 1 5) ∧
    (∃ book ∈ c8wdb.get_all_books,
      (⟨⟨1, "t1", "au1", ["Fantasy"], "", none⟩, 1, "Matches your interest in Fantasy",
        "content_based", none⟩ : Rec).book.genres = book.genres ∧
      ((contentMatchingList (⟨1, "u", ["Fantasy"]⟩ : User).interests book = [] ∧
          (⟨⟨1, "t1", "au1", ["Fantasy"], "", none⟩, 1, "Matches your interest in Fantasy",
            "content_based", none⟩ : Rec).reason = "Based on your reading preferences") ∨
        (contentMatchingList (⟨1, "u", ["Fantasy"]⟩ : User).interests book ≠ [] ∧
          (⟨⟨1, "t1", "au1", ["Fantasy"], "", none⟩, 1, "Matches your interest in Fantasy",
            "content_based", none⟩ : Rec).reason = "Matches your interest in "
            ++ joinSep ", " ((contentMatchingList (⟨1, "u", ["Fantasy"]⟩ : User).interests book).take 3) ∧
          (contentMatchingList (⟨1, "u", ["Fantasy"]⟩ : User).interests book).take 3 ≠ [] ∧
          ((contentMatchingList (⟨1, "u", ["Fantasy"]⟩ : User).interests book).take 3).length ≤ 3 ∧
          ∀ g ∈ (contentMatchingList (⟨1, "u", ["Fantasy"]⟩ : User).interests book).take 3,
            g ∈ book.genres ∧
              lowerStr g ∈ (⟨1, "u", ["Fantasy"]⟩ : User).interests.map lowerStr))) :=
  ⟨by decide, by decide,
    c8_reason_from_untrimmed_overlap c8wdb 1 5 _ _ (by decide) (by decide)⟩

/-- C10: `explain_recommendation` returns none exactly when the user or
the book lookup fails; when both exist it returns a non-empty string —
either the generic sentence or the join, with " • ", of at most three
non-empty clauses. -/
theorem c10_explain_totality (db : DB) (user_id book_id : Nat) :
    (explain_recommendation db user_id book_id = none ↔
      db.get_user_by_id user_id = none ∨ db.get_book_by_id book_id = none) ∧
    ∀ s, explain_recommendation db user_id book_id = some s →
      s ≠ "" ∧ (s = "Based on your reading preferences" ∨
        ∃ clauses, clauses ≠ [] ∧ clauses.length ≤ 3 ∧ s = joinSep " • " clauses) := by
  unfold explain_recommendation
  cases hu : db.get_user_by_id user_id with
  | none =>
    simp only [hu]
    constructor
    · constructor
      · intro _; exact Or.inl trivial
      · intro _; trivial
    · intro s hs; simp at hs
  | some user =>
    cases hb : db.get_book_by_id book_id with
    | none =>
      simp only [hu, hb]
      constructor
      · constructor
        · intro _; exact Or.inr trivial
        · intro _; trivial
      · intro s hs; simp at hs
    | some book =>
      simp only [hu, hb]
      constructor
      · constructor
        · intro hnone
          split at hnone <;> simp at hnone
        · intro hor
          rcases hor with h | h <;> simp at h
      · intro s hs
        by_cases hE : explainClauses db user_id book_id user book ≠ []
        · rw [if_pos hE] at hs
          simp only [Option.some.injEq] at hs
          subst hs
          exact ⟨joinSep_ne_empty _ _ hE (explainClauses_facts db user_id book_id user book).2,
            Or.inr ⟨explainClauses db user_id book_id user book, hE,
              (explainClauses_facts db user_id book_id user book).1, rfl⟩⟩
        · rw [if_neg hE] at hs
          simp only [Option.some.injEq] at hs
          subst hs
          exact ⟨by decide, Or.inl rfl⟩

/-- Witness for C10: on `c10db` both lookups succeed and the theorem
yields a non-empty one-clause explanation. -/
theorem c10_witness :
    explain_recommendation c10db 1 1 = some "This book matches your interest in Fantasy" ∧
    ("This book matches your interest in Fantasy" ≠ "" ∧
      ("This book matches your interest in Fantasy" = "Based on your reading preferences" ∨
        ∃ clauses, clauses ≠ [] ∧ clauses.length ≤ 3 ∧
          "This book matches your interest in Fantasy" = joinSep " • " clauses)) :=
  ⟨by decide, (c10_explain_totality c10db 1 1).2 _ (by decide)⟩

end BookRec
